import Mathlib

/-!
Verification model of `reportdemo.py` (InContact Reporting API client).

The Python source is embedded shallowly:
* bytes are `Nat` values below 256, byte strings are `List Nat`;
* the base64 module's `b64encode` / `b64decode` are modelled as pure
  functions on byte lists / character lists;
* each HTTP endpoint's behaviour is a parameter: a `Resp` value (status
  code plus the parsed JSON fields the code reads), so the methods of
  `CustomReport` become pure functions of those responses;
* `requests.Response.raise_for_status`, which raises `HTTPError` exactly
  for status codes 400-599, is modelled by `isHttpError`;
* side effects (HTTP requests issued, `time.sleep(60)` calls, the final
  file write) are recorded in explicit counters / an event trace.
-/

/-- Alphabet used by Python's `base64.b64encode` (standard alphabet). -/
def b64chars : List Char :=
  ("ABCDEFGHIJKLMNOPQRSTUVWXYZabcdefghijklmnopqrstuvwxyz0123456789+/").toList

/-- Character encoding a six-bit value. -/
def itoc (v : Nat) : Char := b64chars.getD v '='

/-- Position of a character in the base64 alphabet, `none` when absent. -/
def b64index (c : Char) : Option Nat := b64chars.findIdx? (fun x => x == c)

/-- `base64.b64encode` on a byte list: groups of three bytes become four
alphabet characters; a final group of one or two bytes is padded with `=`. -/
def b64encode : List Nat → List Char
  | [] => []
  | [a] => [itoc (a / 4), itoc ((a % 4) * 16), '=', '=']
  | [a, b] => [itoc (a / 4), itoc ((a % 4) * 16 + b / 16), itoc ((b % 16) * 4), '=']
  | a :: b :: c :: rest =>
      itoc (a / 4) :: itoc ((a % 4) * 16 + b / 16) :: itoc ((b % 16) * 4 + c / 64) ::
        itoc (c % 64) :: b64encode rest

/-- `base64.b64decode` on well-formed input (length a multiple of four,
`=` padding only at the very end): four characters yield three bytes, the
padded final groups yield one or two.  Malformed input gives `none`,
matching the `binascii.Error` raised by the Python decoder. -/
def b64decode : List Char → Option (List Nat)
  | [] => some []
  | c1 :: c2 :: c3 :: c4 :: rest =>
      match b64index c1, b64index c2 with
      | some v1, some v2 =>
          if c3 = '=' then
            if c4 = '=' ∧ rest = [] then some [v1 * 4 + v2 / 16] else none
          else
            match b64index c3 with
            | some v3 =>
                if c4 = '=' then
                  if rest = [] then some [v1 * 4 + v2 / 16, (v2 % 16) * 16 + v3 / 4]
                  else none
                else
                  match b64index c4 with
                  | some v4 =>
                      (b64decode rest).map
                        (fun bs => (v1 * 4 + v2 / 16) :: ((v2 % 16) * 16 + v3 / 4) ::
                          ((v3 % 4) * 64 + v4) :: bs)
                  | none => none
            | none => none
      | _, _ => none
  | _ => none

theorem b64index_itoc : ∀ v, v < 64 → b64index (itoc v) = some v := by decide

theorem itoc_ne_pad : ∀ v, v < 64 → itoc v ≠ '=' := by decide

/-- Decoding inverts encoding on every byte list. -/
theorem b64_roundtrip : ∀ P : List Nat, (∀ x ∈ P, x < 256) →
    b64decode (b64encode P) = some P
  | [], _ => rfl
  | [a], h => by
      have ha : a < 256 := h a (by simp)
      have h1 : a / 4 < 64 := by omega
      have h2 : (a % 4) * 16 < 64 := by omega
      simp [b64encode, b64decode, b64index_itoc _ h1, b64index_itoc _ h2]
      omega
  | [a, b], h => by
      have ha : a < 256 := h a (by simp)
      have hb : b < 256 := h b (by simp)
      have h1 : a / 4 < 64 := by omega
      have h2 : (a % 4) * 16 + b / 16 < 64 := by omega
      have h3 : (b % 16) * 4 < 64 := by omega
      simp [b64encode, b64decode, b64index_itoc _ h1, b64index_itoc _ h2,
        b64index_itoc _ h3, itoc_ne_pad _ h3]
      omega
  | a :: b :: c :: rest, h => by
      have ha : a < 256 := h a (by simp)
      have hb : b < 256 := h b (by simp)
      have hc : c < 256 := h c (by simp)
      have h1 : a / 4 < 64 := by omega
      have h2 : (a % 4) * 16 + b / 16 < 64 := by omega
      have h3 : (b % 16) * 4 + c / 64 < 64 := by omega
      have h4 : c % 64 < 64 := by omega
      have ih : b64decode (b64encode rest) = some rest :=
        b64_roundtrip rest (fun x hx => h x (by simp_all))
      simp [b64encode, b64decode, b64index_itoc _ h1, b64index_itoc _ h2,
        b64index_itoc _ h3, b64index_itoc _ h4, itoc_ne_pad _ h3,
        itoc_ne_pad _ h4, ih]
      omega

/-- An HTTP response as the code sees it: the status code and the parsed
JSON fields that the method reads from the body. -/
structure Resp (α : Type) where
  status : Nat
  body : α
deriving DecidableEq

/-- `requests.Response.raise_for_status` raises `HTTPError` exactly when
the status code is in 400..599. -/
def isHttpError (s : Nat) : Bool := decide (400 ≤ s ∧ s < 600)

/-- Exceptions the script can raise: `requests.HTTPError` carrying the
status code, or `binascii.Error` from `base64.b64decode`. -/
inductive Err where
  | http (status : Nat)
  | decodeFailure
deriving DecidableEq

/-- Fields of the token response read by the code:
`resource_server_base_uri` and `access_token`. -/
structure TokenBody where
  resource_server_base_uri : String
  access_token : String
deriving DecidableEq

/-- Field of the start-job response read by the code: `jobId`. -/
structure StartBody where
  jobId : String
deriving DecidableEq

/-- Field of a status response read by the code:
`jobResult.resultFileURL` (the empty string models an empty/absent field,
which is falsy in the Python condition `not fileURL`). -/
structure StatusBody where
  resultFileURL : String
deriving DecidableEq

/-- Field of the file-fetch response read by the code: `files.file`,
a base64 character string. -/
structure FileBody where
  file : List Char
deriving DecidableEq

/-- State built by `CustomReport.__init__`: the precomputed `authCode`
blob plus the stored username and password. -/
structure CustomReport where
  authCode : List Char
  username : String
  password : String
deriving DecidableEq

/-- `CustomReport.__init__`: `auth = app + '@' + vendor + ':' + bu` (on
the UTF-8 bytes of those strings; 64 is `'@'`, 58 is `':'`), then
`self.authCode = base64.b64encode(auth.encode())`. -/
def CustomReport.init (app vendor bu : List Nat) (username password : String) :
    CustomReport :=
  ⟨b64encode (app ++ 64 :: vendor ++ 58 :: bu), username, password⟩

/-- Request issued by `CustomReport.getToken`: fixed URL, header
`Authorization: b'basic ' + self.authCode`, and the password-grant body. -/
structure TokenRequest where
  url : String
  authorization : List Char
  grant_type : String
  username : String
  password : String
deriving DecidableEq

/-- The request `CustomReport.getToken` issues (it depends only on the
instance state, so every call within the process sends the same one). -/
def getTokenRequest (cr : CustomReport) : TokenRequest :=
  ⟨"https://api.incontact.com/InContactAuthorizationServer/Token",
   ("basic ").toList ++ cr.authCode, "password", cr.username, cr.password⟩

/-- `CustomReport.getToken` on the token endpoint's response:
`resp.raise_for_status()` then `return resp.json()`. -/
def getToken (resp : Resp TokenBody) : Except Err TokenBody :=
  if isHttpError resp.status then Except.error (Err.http resp.status)
  else Except.ok resp.body

/-- JSON body sent by `CustomReport.startReportJob`. -/
structure StartJobBody where
  fileType : String
  includeHeaders : String
  appendDate : String
  deleteAfter : String
  overwrite : String
deriving DecidableEq

/-- The literal body dictionary of `startReportJob`. -/
def startJobBody : StartJobBody := ⟨"CSV", "true", "true", "7", "true"⟩

/-- Request issued by `CustomReport.startReportJob`: url, body, and the
bearer Authorization header. -/
def startReportJobRequest (reportId reportURL token : String) :
    String × StartJobBody × String :=
  (reportURL ++ reportId, startJobBody, "bearer " ++ token)

/-- `CustomReport.startReportJob` on the job endpoint's response:
`resp.raise_for_status()` then `return resp.json()['jobId']`. -/
def startReportJob (resp : Resp StartBody) : Except Err String :=
  if isHttpError resp.status then Except.error (Err.http resp.status)
  else Except.ok resp.body.jobId

/-- Observable outcome of a `getFileURL` run: the returned `fileURL`,
the number of GET requests issued to the status endpoint, and the list of
`time.sleep` durations performed. -/
structure PollResult where
  fileURL : String
  requests : Nat
  sleeps : List Nat
deriving DecidableEq

/-- The `while (not fileURL and numTries > 0)` loop of
`CustomReport.getFileURL`.  `respond i` is the status endpoint's response
to the i-th GET request (0-based); `fileURL` is the current value, `reqs`
the number of requests already issued, `sleeps` the sleeps already done.
Each iteration sleeps 60, re-requests, and decrements `numTries`. -/
def pollLoop (respond : Nat → Resp StatusBody) :
    String → Nat → Nat → List Nat → PollResult
  | fileURL, 0, reqs, sleeps => ⟨fileURL, reqs, sleeps⟩
  | fileURL, numTries + 1, reqs, sleeps =>
      if fileURL = "" then
        pollLoop respond (respond reqs).body.resultFileURL numTries (reqs + 1)
          (sleeps ++ [60])
      else ⟨fileURL, reqs, sleeps⟩

/-- `CustomReport.getFileURL`: one initial GET of the status endpoint,
then the retry loop with `numTries = 10`.  The status code of the
responses is never consulted (the method has no `raise_for_status`). -/
def getFileURL (respond : Nat → Resp StatusBody) : PollResult :=
  pollLoop respond (respond 0).body.resultFileURL 10 1 []

/-- `CustomReport.downloadReport` on the file endpoint's response:
`return resp.json()['files']['file']`; no `raise_for_status` here either,
so the status code is ignored and the call never raises `HTTPError`. -/
def downloadReport (resp : Resp FileBody) : List Char :=
  resp.body.file

/-- Externally visible events of a `getReport` run, in order: the token
request (with its Authorization header), the start-job request (with its
url, body dictionary and bearer token), the status polling (job id,
number of status GETs, sleeps performed), the file-fetch GET (url and
bearer token), and the final write of the decoded bytes to the target
file. -/
inductive Ev where
  | auth (authorization : List Char)
  | start (url : String) (body : StartJobBody) (token : String)
  | poll (jobId : String) (checks : Nat) (sleeps : List Nat)
  | download (url : String) (token : String)
  | fileWrite (target : String) (contents : List Nat)
deriving DecidableEq

/-- Behaviour of the remote service during one run: the responses of the
four endpoints (the status endpoint's response may vary per request). -/
structure Service where
  tokenResp : Resp TokenBody
  startResp : Resp StartBody
  statusResp : Nat → Resp StatusBody
  fileResp : Resp FileBody

/-- The reporting base URL built in `getReport`:
`json['resource_server_base_uri'] + 'services/' + version + '/report-jobs/'`
with `version = 'v13.0'`. -/
def reportURLOf (base : String) : String :=
  base ++ "services/" ++ "v13.0" ++ "/report-jobs/"

/-- `CustomReport.getReport`: runs the pipeline
`getToken` / `startReportJob` / `getFileURL` / `downloadReport`, then
writes `base64.b64decode(b64bytes).decode('utf-8')` to the target file.
Returns the trace of externally visible events together with the
exception that aborted the run, if any.  The written contents are
modelled as the decoded bytes (the text written is their UTF-8
decoding, so the file's byte contents are exactly those bytes). -/
def getReport (cr : CustomReport) (svc : Service) (reportId target : String) :
    List Ev × Option Err :=
  match getToken svc.tokenResp with
  | Except.error e => ([Ev.auth (getTokenRequest cr).authorization], some e)
  | Except.ok json =>
      match startReportJob svc.startResp with
      | Except.error e =>
          ([Ev.auth (getTokenRequest cr).authorization,
            Ev.start (reportURLOf json.resource_server_base_uri ++ reportId)
              startJobBody json.access_token], some e)
      | Except.ok jobId =>
          match b64decode (downloadReport svc.fileResp) with
          | none =>
              ([Ev.auth (getTokenRequest cr).authorization,
                Ev.start (reportURLOf json.resource_server_base_uri ++ reportId)
                  startJobBody json.access_token,
                Ev.poll jobId (getFileURL svc.statusResp).requests
                  (getFileURL svc.statusResp).sleeps,
                Ev.download (getFileURL svc.statusResp).fileURL json.access_token],
               some Err.decodeFailure)
          | some bytes =>
              ([Ev.auth (getTokenRequest cr).authorization,
                Ev.start (reportURLOf json.resource_server_base_uri ++ reportId)
                  startJobBody json.access_token,
                Ev.poll jobId (getFileURL svc.statusResp).requests
                  (getFileURL svc.statusResp).sleeps,
                Ev.download (getFileURL svc.statusResp).fileURL json.access_token,
                Ev.fileWrite target bytes], none)

theorem pollLoop_done (respond : Nat → Resp StatusBody) (u : String) (hu : u ≠ "") :
    ∀ (n r : Nat) (s : List Nat), pollLoop respond u n r s = ⟨u, r, s⟩
  | 0, _, _ => rfl
  | _ + 1, _, _ => by simp [pollLoop, hu]

theorem pollLoop_step (respond : Nat → Resp StatusBody) (n r : Nat) (s : List Nat) :
    pollLoop respond "" (n + 1) r s =
      pollLoop respond (respond r).body.resultFileURL n (r + 1) (s ++ [60]) := by
  simp [pollLoop]

theorem pollLoop_ready (respond : Nat → Resp StatusBody) :
    ∀ (k : Nat), ∀ (n r : Nat) (s : List Nat), k < n →
    (∀ i, i < k → (respond (r + i)).body.resultFileURL = "") →
    (respond (r + k)).body.resultFileURL ≠ "" →
    pollLoop respond "" n r s =
      ⟨(respond (r + k)).body.resultFileURL, r + k + 1, s ++ List.replicate (k + 1) 60⟩ := by
  intro k
  induction k with
  | zero =>
      intro n r s hn hempty hready
      match n, hn with
      | m + 1, _ =>
        rw [pollLoop_step, pollLoop_done respond _ (by simpa using hready)]
        simp
  | succ k ih =>
      intro n r s hn hempty hready
      match n, hn with
      | m + 1, hn =>
        have h0 : (respond r).body.resultFileURL = "" := by
          simpa using hempty 0 (by omega)
        rw [pollLoop_step, h0]
        have h1 : ∀ i, i < k → (respond (r + 1 + i)).body.resultFileURL = "" := by
          intro i hi
          have := hempty (i + 1) (by omega)
          rwa [show r + (i + 1) = r + 1 + i by omega] at this
        have h2 : (respond (r + 1 + k)).body.resultFileURL ≠ "" := by
          rwa [show r + 1 + k = r + (k + 1) by omega]
        rw [ih m (r + 1) (s ++ [60]) (by omega) h1 h2]
        rw [show r + 1 + k = r + (k + 1) by omega]
        simp [List.replicate_succ]

theorem pollLoop_exhaust (respond : Nat → Resp StatusBody)
    (hempty : ∀ i, (respond i).body.resultFileURL = "") :
    ∀ (n r : Nat) (s : List Nat),
      pollLoop respond "" n r s = ⟨"", r + n, s ++ List.replicate n 60⟩
  | 0, r, s => by simp [pollLoop]
  | n + 1, r, s => by
      rw [pollLoop_step, hempty r, pollLoop_exhaust respond hempty n (r + 1) (s ++ [60])]
      simp [List.replicate_succ]
      omega

/-- Helper: on an always-empty status endpoint, `getFileURL` issues 11
requests (the initial one plus the 10 loop re-checks), sleeps 10 times,
and returns the empty string. -/
theorem getFileURL_allEmpty (respond : Nat → Resp StatusBody)
    (hempty : ∀ i, (respond i).body.resultFileURL = "") :
    getFileURL respond = ⟨"", 11, List.replicate 10 60⟩ := by
  unfold getFileURL
  rw [hempty 0, pollLoop_exhaust respond hempty 10 1 []]
  simp

theorem pollLoop_requests_ge (respond : Nat → Resp StatusBody) :
    ∀ (u : String) (n r : Nat) (s : List Nat), r ≤ (pollLoop respond u n r s).requests
  | _, 0, _, _ => Nat.le_refl _
  | u, n + 1, r, s => by
      by_cases hu : u = ""
      · subst hu
        rw [pollLoop_step]
        have := pollLoop_requests_ge respond (respond r).body.resultFileURL n (r + 1) (s ++ [60])
        omega
      · rw [pollLoop_done respond u hu]

theorem pollLoop_bound (respond : Nat → Resp StatusBody) :
    ∀ (u : String) (n r : Nat) (s : List Nat),
      (pollLoop respond u n r s).requests ≤ r + n ∧
      (pollLoop respond u n r s).sleeps.length ≤ s.length + n
  | _, 0, _, _ => by simp [pollLoop]
  | u, n + 1, r, s => by
      by_cases hu : u = ""
      · subst hu
        rw [pollLoop_step]
        have := pollLoop_bound respond (respond r).body.resultFileURL n (r + 1) (s ++ [60])
        simp at this ⊢
        omega
      · rw [pollLoop_done respond u hu]
        constructor <;> simp

/-- C1: if the status endpoint's `resultFileURL` field is empty for the
first `k` responses (any `k ≤ 9`) and non-empty on response `k + 1`, then
`getFileURL` issues exactly `k + 1` status requests, performs exactly `k`
sleeps of 60 units, and returns that non-empty location. -/
theorem getFileURL_ready (respond : Nat → Resp StatusBody) (k : Nat) (_hk : k ≤ 9)
    (hempty : ∀ i, i < k → (respond i).body.resultFileURL = "")
    (hready : (respond k).body.resultFileURL ≠ "") :
    getFileURL respond =
      ⟨(respond k).body.resultFileURL, k + 1, List.replicate k 60⟩ := by
  unfold getFileURL
  cases k with
  | zero =>
      rw [pollLoop_done respond _ hready]
      simp
  | succ k =>
      rw [hempty 0 (by omega)]
      have h1 : ∀ i, i < k → (respond (1 + i)).body.resultFileURL = "" := by
        intro i hi
        have := hempty (i + 1) (by omega)
        rwa [show (i : Nat) + 1 = 1 + i by omega] at this
      have h2 : (respond (1 + k)).body.resultFileURL ≠ "" := by
        rwa [show (1 : Nat) + k = k + 1 by omega]
      rw [pollLoop_ready respond k 10 1 [] (by omega) h1 h2]
      rw [show (1 : Nat) + k = k + 1 by omega]
      simp

theorem getFileURL_ready_witness :
    (2 : Nat) ≤ 9 ∧
      getFileURL (fun i => ⟨200, ⟨if i < 2 then "" else "u"⟩⟩) =
        ⟨"u", 3, List.replicate 2 60⟩ := by
  refine ⟨by omega, ?_⟩
  have := getFileURL_ready (fun i => ⟨200, ⟨if i < 2 then "" else "u"⟩⟩) 2
    (by omega) (fun i hi => by simp [hi]) (by simp)
  simpa using this

/-- C2 (amended): if the status endpoint's `resultFileURL` field is empty
on every response, `getFileURL` issues exactly 11 status requests (the
initial check plus the loop's 10 retries), sleeps 10 times, and returns
the empty result without raising. -/
theorem getFileURL_timeout (respond : Nat → Resp StatusBody)
    (hempty : ∀ i, (respond i).body.resultFileURL = "") :
    getFileURL respond = ⟨"", 11, List.replicate 10 60⟩ :=
  getFileURL_allEmpty respond hempty

theorem getFileURL_timeout_witness :
    (∀ i : Nat, ((fun _ : Nat => (⟨200, ⟨""⟩⟩ : Resp StatusBody)) i).body.resultFileURL = "") ∧
      getFileURL (fun _ => ⟨200, ⟨""⟩⟩) = ⟨"", 11, List.replicate 10 60⟩ :=
  ⟨fun _ => rfl, getFileURL_timeout (fun _ => ⟨200, ⟨""⟩⟩) (fun _ => rfl)⟩

/-- C2 counterexample: on an always-empty status endpoint the code issues
11 status requests, not 10 as the claim states. -/
theorem getFileURL_timeout_cex :
    ¬ ((getFileURL (fun _ => ⟨200, ⟨""⟩⟩)).requests = 10) := by decide

/-- C10: for every status-endpoint behaviour, `getFileURL` (a total
function, so it terminates) issues at most 11 status requests and
performs at most 10 sleeps. -/
theorem getFileURL_bounded (respond : Nat → Resp StatusBody) :
    (getFileURL respond).requests ≤ 11 ∧ (getFileURL respond).sleeps.length ≤ 10 := by
  have := pollLoop_bound respond (respond 0).body.resultFileURL 10 1 []
  unfold getFileURL
  simp at this ⊢
  omega

/-- C7: the credential blob is computed at construction as the base64
encoding of `app ++ '@' ++ vendor ++ ':' ++ bu` (64 and 58 are the byte
values of `'@'` and `':'`), the encoding is reversible (`b64decode`
recovers the concatenation), and the authentication request issued by
`getToken` on the constructed instance carries exactly this blob after
the `b'basic '` prefix. -/
theorem authCode_invariant (app vendor bu : List Nat) (username password : String)
    (h : ∀ x ∈ app ++ 64 :: vendor ++ 58 :: bu, x < 256) :
    (CustomReport.init app vendor bu username password).authCode =
      b64encode (app ++ 64 :: vendor ++ 58 :: bu) ∧
    b64decode (CustomReport.init app vendor bu username password).authCode =
      some (app ++ 64 :: vendor ++ 58 :: bu) ∧
    (getTokenRequest (CustomReport.init app vendor bu username password)).authorization =
      ("basic ").toList ++ b64encode (app ++ 64 :: vendor ++ 58 :: bu) :=
  ⟨rfl, b64_roundtrip _ h, rfl⟩

theorem authCode_invariant_witness :
    (∀ x ∈ [97] ++ 64 :: [98] ++ 58 :: [99], x < 256) ∧
    ((CustomReport.init [97] [98] [99] "u" "p").authCode =
        b64encode ([97] ++ 64 :: [98] ++ 58 :: [99]) ∧
      b64decode (CustomReport.init [97] [98] [99] "u" "p").authCode =
        some ([97] ++ 64 :: [98] ++ 58 :: [99]) ∧
      (getTokenRequest (CustomReport.init [97] [98] [99] "u" "p")).authorization =
        ("basic ").toList ++ b64encode ([97] ++ 64 :: [98] ++ 58 :: [99])) :=
  ⟨by decide, authCode_invariant [97] [98] [99] "u" "p" (by decide)⟩

/-- C8: `startReportJob` sends a body requesting CSV output, column
headers, a date suffix, deletion after 7 days and overwriting, and on a
successful (non-4xx/5xx) response returns exactly the response's `jobId`
field. -/
theorem startReportJob_spec (reportId reportURL token : String)
    (resp : Resp StartBody) (hok : isHttpError resp.status = false) :
    (startReportJobRequest reportId reportURL token).2.1.fileType = "CSV" ∧
    (startReportJobRequest reportId reportURL token).2.1.includeHeaders = "true" ∧
    (startReportJobRequest reportId reportURL token).2.1.appendDate = "true" ∧
    (startReportJobRequest reportId reportURL token).2.1.deleteAfter = "7" ∧
    (startReportJobRequest reportId reportURL token).2.1.overwrite = "true" ∧
    startReportJob resp = Except.ok resp.body.jobId := by
  refine ⟨rfl, rfl, rfl, rfl, rfl, ?_⟩
  simp [startReportJob, hok]

theorem startReportJob_spec_witness :
    isHttpError 200 = false ∧
    ((startReportJobRequest "R" "https://x/" "T").2.1.fileType = "CSV" ∧
      (startReportJobRequest "R" "https://x/" "T").2.1.includeHeaders = "true" ∧
      (startReportJobRequest "R" "https://x/" "T").2.1.appendDate = "true" ∧
      (startReportJobRequest "R" "https://x/" "T").2.1.deleteAfter = "7" ∧
      (startReportJobRequest "R" "https://x/" "T").2.1.overwrite = "true" ∧
      startReportJob ⟨200, ⟨"J1"⟩⟩ =
        Except.ok ((⟨200, ⟨"J1"⟩⟩ : Resp StartBody)).body.jobId) :=
  ⟨rfl, startReportJob_spec "R" "https://x/" "T" ⟨200, ⟨"J1"⟩⟩ rfl⟩

/-- C4: every run of `getReport` produces a prefix of the event sequence
auth, start, poll, download, fileWrite — never reordered or skipped —
where the start request is built from the token response's base URL and
access token, the poll uses the start response's job id, the download
uses the poll's returned URL and the same token; the poll performs at
least one status check; and a run that completes (no exception) produces
the whole sequence. -/
theorem getReport_sequence (cr : CustomReport) (svc : Service) (reportId target : String) :
    ∃ bytes : List Nat,
      ((getReport cr svc reportId target).1 <+:
        [Ev.auth (getTokenRequest cr).authorization,
         Ev.start (reportURLOf svc.tokenResp.body.resource_server_base_uri ++ reportId)
           startJobBody svc.tokenResp.body.access_token,
         Ev.poll svc.startResp.body.jobId (getFileURL svc.statusResp).requests
           (getFileURL svc.statusResp).sleeps,
         Ev.download (getFileURL svc.statusResp).fileURL svc.tokenResp.body.access_token,
         Ev.fileWrite target bytes]) ∧
      1 ≤ (getFileURL svc.statusResp).requests ∧
      ((getReport cr svc reportId target).2 = none →
        (getReport cr svc reportId target).1 =
          [Ev.auth (getTokenRequest cr).authorization,
           Ev.start (reportURLOf svc.tokenResp.body.resource_server_base_uri ++ reportId)
             startJobBody svc.tokenResp.body.access_token,
           Ev.poll svc.startResp.body.jobId (getFileURL svc.statusResp).requests
             (getFileURL svc.statusResp).sleeps,
           Ev.download (getFileURL svc.statusResp).fileURL svc.tokenResp.body.access_token,
           Ev.fileWrite target bytes]) := by
  have hreq : 1 ≤ (getFileURL svc.statusResp).requests := by
    have := pollLoop_requests_ge svc.statusResp
      ((svc.statusResp 0).body.resultFileURL) 10 1 []
    unfold getFileURL
    omega
  rcases htok : getToken svc.tokenResp with e | json
  · refine ⟨[], ?_, hreq, ?_⟩
    · simp only [getReport, htok]
      exact ⟨_, rfl⟩
    · simp only [getReport, htok]
      intro hc
      simp at hc
  · have hj : json = svc.tokenResp.body := by
      unfold getToken at htok
      split at htok
      · exact Except.noConfusion htok
      · injection htok with h
        exact h.symm
    subst hj
    rcases hstart : startReportJob svc.startResp with e | jobId
    · refine ⟨[], ?_, hreq, ?_⟩
      · simp only [getReport, htok, hstart]
        exact ⟨_, rfl⟩
      · simp only [getReport, htok, hstart]
        intro hc
        simp at hc
    · have hjid : jobId = svc.startResp.body.jobId := by
        unfold startReportJob at hstart
        split at hstart
        · exact Except.noConfusion hstart
        · injection hstart with h
          exact h.symm
      subst hjid
      rcases hdec : b64decode (downloadReport svc.fileResp) with _ | bytes
      · refine ⟨[], ?_, hreq, ?_⟩
        · simp only [getReport, htok, hstart, hdec]
          exact ⟨_, rfl⟩
        · simp only [getReport, htok, hstart, hdec]
          intro hc
          simp at hc
      · refine ⟨bytes, ?_, hreq, ?_⟩
        · simp only [getReport, htok, hstart, hdec]
          exact List.prefix_refl _
        · intro _
          simp only [getReport, htok, hstart, hdec]

/-- A concrete instance, built from byte strings a, b, c. -/
def cr0 : CustomReport := CustomReport.init [97] [98] [99] "u" "p"

/-- A concrete well-behaved service, following the spec's scenario: the
first status check is empty, the second returns a location, and the file
endpoint serves base64 of the bytes of the text a,b newline 1,2. -/
def svcGood : Service :=
  ⟨⟨200, ⟨"https://x/", "T"⟩⟩, ⟨200, ⟨"J1"⟩⟩,
   fun i => ⟨200, ⟨if i = 0 then "" else "https://x/f"⟩⟩,
   ⟨200, ⟨b64encode [97, 44, 98, 10, 49, 44, 50]⟩⟩⟩

/-- A concrete service whose status endpoint never reports a result. -/
def svcTimeout : Service :=
  ⟨⟨200, ⟨"https://x/", "T"⟩⟩, ⟨200, ⟨"J1"⟩⟩, fun _ => ⟨200, ⟨""⟩⟩,
   ⟨200, ⟨b64encode [65]⟩⟩⟩

theorem getReport_sequence_witness :
    ∃ bytes : List Nat,
      ((getReport cr0 svcGood "R" "out.csv").1 <+:
        [Ev.auth (getTokenRequest cr0).authorization,
         Ev.start (reportURLOf svcGood.tokenResp.body.resource_server_base_uri ++ "R")
           startJobBody svcGood.tokenResp.body.access_token,
         Ev.poll svcGood.startResp.body.jobId (getFileURL svcGood.statusResp).requests
           (getFileURL svcGood.statusResp).sleeps,
         Ev.download (getFileURL svcGood.statusResp).fileURL
           svcGood.tokenResp.body.access_token,
         Ev.fileWrite "out.csv" bytes]) ∧
      1 ≤ (getFileURL svcGood.statusResp).requests ∧
      ((getReport cr0 svcGood "R" "out.csv").2 = none →
        (getReport cr0 svcGood "R" "out.csv").1 =
          [Ev.auth (getTokenRequest cr0).authorization,
           Ev.start (reportURLOf svcGood.tokenResp.body.resource_server_base_uri ++ "R")
             startJobBody svcGood.tokenResp.body.access_token,
           Ev.poll svcGood.startResp.body.jobId (getFileURL svcGood.statusResp).requests
             (getFileURL svcGood.statusResp).sleeps,
           Ev.download (getFileURL svcGood.statusResp).fileURL
             svcGood.tokenResp.body.access_token,
           Ev.fileWrite "out.csv" bytes]) :=
  getReport_sequence cr0 svcGood "R" "out.csv"

/-- C5: if the file endpoint serves the base64 encoding of a payload `P`
(as byte list) and the token and start-job stages succeed, `getReport`
finishes without an exception and writes the output file with contents
exactly `P` — the decode inverts the encoding. -/
theorem getReport_roundtrip (cr : CustomReport) (svc : Service) (reportId target : String)
    (P : List Nat) (hP : ∀ x ∈ P, x < 256)
    (hfile : svc.fileResp.body.file = b64encode P)
    (htok : isHttpError svc.tokenResp.status = false)
    (hstart : isHttpError svc.startResp.status = false) :
    (getReport cr svc reportId target).2 = none ∧
      Ev.fileWrite target P ∈ (getReport cr svc reportId target).1 := by
  have h1 : getToken svc.tokenResp = Except.ok svc.tokenResp.body := by
    simp [getToken, htok]
  have h2 : startReportJob svc.startResp = Except.ok svc.startResp.body.jobId := by
    simp [startReportJob, hstart]
  have h3 : b64decode (downloadReport svc.fileResp) = some P := by
    unfold downloadReport
    rw [hfile]
    exact b64_roundtrip P hP
  simp [getReport, h1, h2, h3]

theorem getReport_roundtrip_witness :
    (getReport cr0 svcGood "R" "out.csv").2 = none ∧
      Ev.fileWrite "out.csv" [97, 44, 98, 10, 49, 44, 50] ∈
        (getReport cr0 svcGood "R" "out.csv").1 :=
  getReport_roundtrip cr0 svcGood "R" "out.csv" [97, 44, 98, 10, 49, 44, 50]
    (by decide) rfl rfl rfl

/-- C9: when every status response has an empty `resultFileURL` (the
retry budget is exhausted) and the earlier stages succeed, `getReport`
does not abort at the poll stage: the download stage is attempted with
the empty string as the fetch URL. -/
theorem getReport_emptyURL (cr : CustomReport) (svc : Service) (reportId target : String)
    (htok : isHttpError svc.tokenResp.status = false)
    (hstart : isHttpError svc.startResp.status = false)
    (hempty : ∀ i, (svc.statusResp i).body.resultFileURL = "") :
    Ev.download "" svc.tokenResp.body.access_token ∈
      (getReport cr svc reportId target).1 := by
  have h1 : getToken svc.tokenResp = Except.ok svc.tokenResp.body := by
    simp [getToken, htok]
  have h2 : startReportJob svc.startResp = Except.ok svc.startResp.body.jobId := by
    simp [startReportJob, hstart]
  have h3 := getFileURL_allEmpty svc.statusResp hempty
  rcases hdec : b64decode (downloadReport svc.fileResp) with _ | bytes
  · simp [getReport, h1, h2, h3, hdec]
  · simp [getReport, h1, h2, h3, hdec]

theorem getReport_emptyURL_witness :
    Ev.download "" "T" ∈ (getReport cr0 svcTimeout "R" "out.csv").1 :=
  getReport_emptyURL cr0 svcTimeout "R" "out.csv" rfl rfl (fun _ => rfl)

/-- C3 (exhibit of the code bug): on an HTTP 500 response — for which
`raise_for_status` raises, as `isHttpError 500 = true` records —
`getToken` and `startReportJob` do raise, but `getFileURL` and
`downloadReport`, which never call `raise_for_status`, return normally:
a 500 status response whose body carries a `resultFileURL` is accepted
as a result, and a 500 file response's body is returned as the payload,
contradicting both the claim and the two methods' own docstrings. -/
theorem statusCheck_missing_cex :
    isHttpError 500 = true ∧
    getToken ⟨500, ⟨"https://x/", "T"⟩⟩ = Except.error (Err.http 500) ∧
    startReportJob ⟨500, ⟨"J1"⟩⟩ = Except.error (Err.http 500) ∧
    getFileURL (fun _ => ⟨500, ⟨"u"⟩⟩) = ⟨"u", 1, []⟩ ∧
    downloadReport ⟨500, ⟨("QQ==").toList⟩⟩ = ("QQ==").toList := by
  refine ⟨rfl, rfl, rfl, ?_, rfl⟩
  decide

/-- A concrete service whose status and file endpoints answer with HTTP
500 but well-formed bodies. -/
def svcBadStatus : Service :=
  ⟨⟨200, ⟨"https://x/", "T"⟩⟩, ⟨200, ⟨"J1"⟩⟩, fun _ => ⟨500, ⟨"https://x/f"⟩⟩,
   ⟨500, ⟨b64encode [65]⟩⟩⟩

/-- C6 (exhibit of the code bug): with HTTP 500 responses from the
status and file endpoints, the run is not terminated: `getReport`
finishes without an exception, reaches the download stage, and writes
the output file. -/
theorem getReport_nonatomic_cex :
    isHttpError 500 = true ∧
    (getReport cr0 svcBadStatus "R" "out.csv").2 = none ∧
    Ev.fileWrite "out.csv" [65] ∈ (getReport cr0 svcBadStatus "R" "out.csv").1 := by
  refine ⟨rfl, ?_, ?_⟩ <;> decide
